import Mathlib

/-!
Verification of the runner lifecycle logic of `lutris/runners/runner.py`
(class `Runner`): prelaunch library checks, the run sequence, remote
version resolution (`get_runner_version`), installation (`install`),
archive extraction (`extract`), executable resolution (`get_executable` /
`is_installed`) and environment construction (`get_env`).

External collaborators (the HTTP client, the filesystem, the archive
extractor, the process launcher) are modelled as explicit parameters:
the filesystem as path predicates / content maps, the HTTP catalog fetch
as an `Except` value, the extractor outcome as an `Except` value.
-/

namespace RunnerModel

/-- The system's shared-library inventory (`LINUX_SYSTEM.shared_libraries`):
an association from a library name to the architectures of the instances
of that library that are present. -/
abbrev LibInventory := List (String × List String)

/-- Error raised by `Runner.prelaunch` (`UnavailableLibrariesError`):
carries the set of missing libraries and the runner's declared
architecture. -/
structure UnavailableLibrariesError where
  libraries : List String
  arch : Option String
  deriving Repr, DecidableEq

/-- One required library is available: it is a key of the shared-library
inventory and, when the runner declares a fixed architecture, at least one
instance of the library has that architecture (the inner loop of
`Runner.prelaunch`, runner.py lines 259-265). -/
def libAvailable (inv : LibInventory) (arch : Option String) (lib : String) : Bool :=
  match inv.lookup lib with
  | none => false
  | some arches =>
    match arch with
    | none => true
    | some a => arches.contains a

/-- `Runner.prelaunch` (runner.py lines 254-268): compute the set of
required libraries that are not available (`set(self.require_libs)` minus
the available ones; `dedup` models the set built from the list) and raise
`UnavailableLibrariesError` on that set and the declared architecture if
it is non-empty. -/
def prelaunch (requireLibs : List String) (arch : Option String) (inv : LibInventory) :
    Except UnavailableLibrariesError Unit :=
  let unavailable := requireLibs.dedup.filter (fun lib => !(libAvailable inv arch lib))
  if unavailable.isEmpty then .ok () else .error ⟨unavailable, arch⟩

/-- Observable steps of `Runner.run` (runner.py lines 276-293):
fetching the run data, and constructing/starting the `MonitoredCommand`. -/
inductive RunStep where
  | getRunData
  | spawn
  deriving Repr, DecidableEq

/-- `Runner.run` (runner.py lines 276-293), modelled as the sequence of
observable steps plus the propagated prelaunch error, if any.
`runnableAlone` is the class flag; `installed` is the result of
`is_installed`; `dialogInstallOk` is the outcome of `install_dialog` when
the runner is not installed. `get_run_data` is recorded as a step; the
`MonitoredCommand` construction and start are the `spawn` step, reached
only if `prelaunch` does not raise. -/
def run (runnableAlone installed dialogInstallOk : Bool)
    (requireLibs : List String) (arch : Option String) (inv : LibInventory) :
    List RunStep × Option UnavailableLibrariesError :=
  if !runnableAlone then ([], none)
  else if !installed && !dialogInstallOk then ([], none)
  else
    match prelaunch requireLibs arch inv with
    | .error e => ([.getRunData], some e)
    | .ok _ => ([.getRunData, .spawn], none)

/-- One entry of the remote runner catalog
(`{site}/api/runners/{name}` JSON, `versions` array): version string,
architecture, download URL and is-default flag. -/
structure VersionInfo where
  version : String
  architecture : String
  url : String
  default : Bool
  deriving Repr, DecidableEq

/-- Error raised by the HTTP client (`lutris.util.http.HTTPError`),
caught inside `get_runner_version`. -/
structure HTTPError where
  msg : String
  deriving Repr, DecidableEq

/-- `suffix.endswith` on strings, computed on the underlying character
lists (used for the `-i386` / `-x86_64` check of `get_runner_version`). -/
def strEndsWith (s sfx : String) : Bool :=
  sfx.data.isSuffixOf s.data

/-- Split a character list around the LAST occurrence of `sep`, if any. -/
def rsplitCharAux (sep : Char) : List Char → Option (List Char × List Char)
  | [] => none
  | c :: cs =>
    match rsplitCharAux sep cs with
    | some (l, r) => some (c :: l, r)
    | none => if c = sep then some ([], cs) else none

/-- Python's `s.rsplit("-", 1)`: split `s` at the last `-`. When `s`
holds no `-` Python would return the whole string as a single piece;
that case is unreachable in `get_runner_version` (guarded by the suffix
check) and is rendered as `(s, "")`. -/
def rsplitDash (s : String) : String × String :=
  match rsplitCharAux '-' s.data with
  | some (l, r) => (String.mk l, String.mk r)
  | none => (s, "")

/-- The final fallback of `get_runner_version` (runner.py lines 385-387):
return the first architecture-matched candidate if any exist, else
nothing (Python's implicit `return None`). -/
def finalFallback (versions_for_arch : List VersionInfo) : Option VersionInfo :=
  if 1 ≤ versions_for_arch.length then versions_for_arch.head? else none

/-- `Runner.get_runner_version` (runner.py lines 336-387). The HTTP
fetch of the catalog is the parameter `fetch`: `.error` is a raised
`HTTPError` (caught, treated as no data), `.ok none` is a falsy JSON
body (`if not runner_info`), `.ok (some vs)` is a body whose `versions`
key holds `vs` (a missing key gives `.ok (some [])`). `localArch` is
`LINUX_SYSTEM.arch` and `is64` is `LINUX_SYSTEM.is_64_bit`. Returns the
selected catalog entry, or `none` (the soft failure). -/
def get_runner_version (localArch : String) (is64 : Bool)
    (fetch : Except HTTPError (Option (List VersionInfo)))
    (version : Option String) : Option VersionInfo :=
  let runner_info : Option (List VersionInfo) :=
    match fetch with
    | .error _ => none
    | .ok info => info
  match runner_info with
  | none => none
  | some catalog =>
    let va : List VersionInfo × String :=
      match version with
      | none => (catalog, localArch)
      | some v =>
        let v' : String × String :=
          if strEndsWith v "-i386" || strEndsWith v "-x86_64" then rsplitDash v
          else (v, localArch)
        (catalog.filter (fun x => x.version == v'.1), v'.2)
    let versions := va.1
    let arch := va.2
    let versions_for_arch := versions.filter (fun x => x.architecture == arch)
    if versions_for_arch.length = 1 then
      versions_for_arch.head?
    else if 1 < versions_for_arch.length then
      match (versions_for_arch.filter (fun x => x.default)).head? with
      | some d => some d
      | none => finalFallback versions_for_arch
    else if versions.length = 1 ∧ is64 = true then
      versions.head?
    else if 1 < versions.length ∧ is64 = true then
      match (versions.filter (fun x => x.default)).head? with
      | some d => some d
      | none => finalFallback versions_for_arch
    else
      finalFallback versions_for_arch

/-- Failures of `Runner.install`: `installationError` is the user-facing
`RunnerInstallationError`, `runtimeError` is the programming-error
`RuntimeError`. -/
inductive InstallFailure where
  | installationError (msg : String)
  | runtimeError (msg : String)
  deriving Repr, DecidableEq

/-- How Python formats an `Option String` into an f-string
(`None` for an absent value). -/
def optStr : Option String → String
  | some s => s
  | none => "None"

/-- The version-resolution path of `Runner.install` (runner.py lines
402-417, reached when no fixed `download_url` is declared): resolve a
catalog entry, raise `RunnerInstallationError` if none, raise
`RuntimeError` if no downloader was supplied, and otherwise hand the
entry's URL to `download_and_extract` (returned here). -/
def installResolve (name : String) (localArch : String) (is64 : Bool)
    (fetch : Except HTTPError (Option (List VersionInfo)))
    (version : Option String) (downloaderPresent : Bool) :
    Except InstallFailure String :=
  match get_runner_version localArch is64 fetch version with
  | none => .error (.installationError
      ("Failed to retrieve " ++ name ++ " (" ++ optStr version ++ ") information"))
  | some runner =>
    if !downloaderPresent then
      .error (.runtimeError ("Missing mandatory downloader for runner " ++ name))
    else
      .ok runner.url

/-- `Runner.install` (runner.py lines 389-417): a truthy fixed
`download_url` bypasses version resolution and is downloaded directly;
otherwise the version-resolution path runs. The returned string is the
URL handed to `download_and_extract`. -/
def install (name : String) (downloadUrl : Option String) (localArch : String)
    (is64 : Bool) (fetch : Except HTTPError (Option (List VersionInfo)))
    (version : Option String) (downloaderPresent : Bool) :
    Except InstallFailure String :=
  match downloadUrl with
  | some url =>
    if url == "" then installResolve name localArch is64 fetch version downloaderPresent
    else .ok url
  | none => installResolve name localArch is64 fetch version downloaderPresent

/-- Structured failure thrown by the archive extractor
(`lutris.util.extract.ExtractFailure`). -/
structure ExtractFailure where
  msg : String
  deriving Repr, DecidableEq

/-- `Runner.extract` (runner.py lines 436-444), the extraction
continuation of the install pipeline. The filesystem is `path_exists`
(which paths exist); the extractor's outcome is the parameter
`extractOutcome`. Returns the raised error (if any) together with the
post-state of the filesystem: `os.remove(archive)` runs only after a
successful extraction. The post-success hooks of lines 446-457 (wine
version-cache clearing, marking the runner executable, the completion
callback) do not touch the archive file and are not modelled. -/
def extract (path_exists : String → Bool) (archive : String)
    (extractOutcome : Except ExtractFailure Unit) :
    Except InstallFailure Unit × (String → Bool) :=
  if !(path_exists archive) then
    (.error (.installationError ("Failed to extract " ++ archive)), path_exists)
  else
    match extractOutcome with
    | .error ex =>
      (.error (.installationError ("Failed to extract " ++ archive ++ ": " ++ ex.msg)),
        path_exists)
    | .ok _ =>
      (.ok (), fun p => if p == archive then false else path_exists p)

/-- `Runner.get_executable` (runner.py lines 172-179): an existing-file
`runner_executable` override from the runner config wins; otherwise a
falsy class-level `runner_executable` raises `ValueError` (modelled as
`.error` carrying the message), else the path under the runner root
directory is returned. `runnerConfigExec` is the value of the
`runner_executable` key of `runner_config` when the key is present. -/
def get_executable (name : String) (runnerConfigExec : Option String)
    (isFile : String → Bool) (runnerExecutable : Option String)
    (runnerDir : String) : Except String String :=
  let fallback : Except String String :=
    match runnerExecutable with
    | some rx =>
      if rx == "" then .error ("runner_executable not set for " ++ name)
      else .ok (runnerDir ++ "/" ++ rx)
    | none => .error ("runner_executable not set for " ++ name)
  match runnerConfigExec with
  | some re => if isFile re then .ok re else fallback
  | none => fallback

/-- `Runner.is_installed` (runner.py lines 332-334):
`system.path_exists(self.get_executable())`; a `ValueError` raised by
`get_executable` propagates. -/
def is_installed (name : String) (runnerConfigExec : Option String)
    (isFile : String → Bool) (runnerExecutable : Option String)
    (runnerDir : String) (path_exists : String → Bool) : Except String Bool :=
  match get_executable name runnerConfigExec isFile runnerExecutable runnerDir with
  | .error e => .error e
  | .ok exe => .ok (path_exists exe)

/-- The `system_config` values consumed by `Runner.get_env`
(runner.py lines 181-240). String-valued options are `Option String`
(absent key = `none`); flag options are `Bool`; `envOverrides` is the
user-supplied `env` override dictionary, as an association list. -/
structure SystemConfig where
  sdl_gamecontrollerconfig : Option String
  sdl_video_fullscreen : Option String
  dri_prime : Bool
  prime : Bool
  pulse_latency : Bool
  vk_icd : Option String
  disable_runtime : Bool
  envOverrides : List (String × String)

/-- Python dict assignment `env[k] = v` on an environment modelled as a
partial map. -/
def envSet (e : String → Option String) (k v : String) : String → Option String :=
  fun x => if x = k then some v else e x

/-- Seeding of the environment (runner.py lines 183-185): the current
process environment when `os_env` is set, else empty. -/
def envSeed (osEnv : Bool) (osEnviron : String → Option String) :
    String → Option String :=
  fun x => if osEnv then osEnviron x else none

/-- Shader-cache variables (runner.py lines 187-190). -/
def envShaderCache (shaderCachePath : String) (e : String → Option String) :
    String → Option String :=
  envSet (envSet e "__GL_SHADER_DISK_CACHE" "1")
    "__GL_SHADER_DISK_CACHE_PATH" shaderCachePath

/-- SDL2 controller configuration (runner.py lines 192-199): a truthy
configured path is user-expanded; if it exists as a file (`fs` maps
existing paths to their contents) the contents are inlined, otherwise
the original string is passed through. -/
def envController (cfg : SystemConfig) (fs : String → Option String)
    (expandUser : String → String) (e : String → Option String) :
    String → Option String :=
  match cfg.sdl_gamecontrollerconfig with
  | none => e
  | some sdlCfg =>
    if sdlCfg == "" then e
    else
      match fs (expandUser sdlCfg) with
      | some contents => envSet e "SDL_GAMECONTROLLERCONFIG" contents
      | none => envSet e "SDL_GAMECONTROLLERCONFIG" sdlCfg

/-- SDL 1 fullscreen monitor (runner.py lines 201-204). -/
def envFullscreen (cfg : SystemConfig) (e : String → Option String) :
    String → Option String :=
  match cfg.sdl_video_fullscreen with
  | none => e
  | some sv =>
    if sv == "" || sv == "off" then e
    else envSet e "SDL_VIDEO_FULLSCREEN_DISPLAY" sv

/-- DRI Prime (runner.py lines 206-208). -/
def envDriPrime (cfg : SystemConfig) (e : String → Option String) :
    String → Option String :=
  if cfg.dri_prime then envSet e "DRI_PRIME" "1" else e

/-- NVidia Prime render offload (runner.py lines 210-215). -/
def envPrime (cfg : SystemConfig) (e : String → Option String) :
    String → Option String :=
  if cfg.prime then
    envSet (envSet (envSet e "__NV_PRIME_RENDER_OFFLOAD" "1")
      "__GLX_VENDOR_LIBRARY_NAME" "nvidia") "__VK_LAYER_NV_optimus" "NVIDIA_only"
  else e

/-- PulseAudio latency (runner.py lines 217-219). -/
def envPulse (cfg : SystemConfig) (e : String → Option String) :
    String → Option String :=
  if cfg.pulse_latency then envSet e "PULSE_LATENCY_MSEC" "60" else e

/-- Vulkan ICD files (runner.py lines 221-224). -/
def envVkIcd (cfg : SystemConfig) (e : String → Option String) :
    String → Option String :=
  match cfg.vk_icd with
  | none => e
  | some icd => if icd == "" then e else envSet e "VK_ICD_FILENAMES" icd

/-- Runtime library path merging (runner.py lines 226-235):
`use_runtime` is false when the runtime kill-switch environment is set
or the system config disables the runtime; a truthy runtime
`LD_LIBRARY_PATH` is joined with any existing value using the path
separator, dropping falsy segments. -/
def envRuntimeLd (cfg : SystemConfig) (disableRuntimeArg runtimeDisabledEnv : Bool)
    (runtimeLd : Option String) (e : String → Option String) :
    String → Option String :=
  let use_runtime := !runtimeDisabledEnv && !cfg.disable_runtime
  let runtime_ld_library_path :=
    if !disableRuntimeArg && use_runtime then runtimeLd else none
  match runtime_ld_library_path with
  | none => e
  | some rt =>
    if rt == "" then e
    else
      let segments := ([some rt, e "LD_LIBRARY_PATH"].filterMap id).filter
        (fun s => !(s == ""))
      envSet e "LD_LIBRARY_PATH" (String.intercalate ":" segments)

/-- The user env overrides applied last (runner.py line 238). -/
def envApplyOverrides (overrides : List (String × String))
    (e : String → Option String) : String → Option String :=
  overrides.foldl (fun acc kv => envSet acc kv.1 kv.2) e

/-- `Runner.get_env` (runner.py lines 181-240): the sequential
construction of the game environment. -/
def get_env (cfg : SystemConfig) (osEnv : Bool) (osEnviron : String → Option String)
    (fs : String → Option String) (expandUser : String → String)
    (shaderCachePath : String) (disableRuntimeArg runtimeDisabledEnv : Bool)
    (runtimeLd : Option String) : String → Option String :=
  envApplyOverrides cfg.envOverrides
    (envRuntimeLd cfg disableRuntimeArg runtimeDisabledEnv runtimeLd
      (envVkIcd cfg
        (envPulse cfg
          (envPrime cfg
            (envDriPrime cfg
              (envFullscreen cfg
                (envController cfg fs expandUser
                  (envShaderCache shaderCachePath (envSeed osEnv osEnviron)))))))))

end RunnerModel

namespace RunnerModel

theorem envSet_ne {e : String → Option String} {k k' v : String} (h : k ≠ k') :
    envSet e k' v k = e k := by
  simp [envSet, h]

theorem envSet_self {e : String → Option String} {k v : String} :
    envSet e k v k = some v := by
  simp [envSet]

theorem envApplyOverrides_not_mem (l : List (String × String))
    (e : String → Option String) (k : String) (h : ∀ v, (k, v) ∉ l) :
    envApplyOverrides l e k = e k := by
  induction l generalizing e with
  | nil => rfl
  | cons hd tl ih =>
    unfold envApplyOverrides at ih ⊢
    simp only [List.foldl_cons]
    rw [ih _ (fun v hv => h v (List.mem_cons_of_mem _ hv))]
    refine envSet_ne (fun hk => ?_)
    exact h hd.2 (by rw [hk]; exact List.mem_cons_self _ _)

theorem strEndsWith_append (w sfx : String) : strEndsWith (w ++ sfx) sfx = true := by
  unfold strEndsWith
  rw [String.data_append]
  exact List.isSuffixOf_iff_suffix.mpr (List.suffix_append _ _)

theorem rsplitCharAux_eq_none (sep : Char) (r : List Char) (hr : sep ∉ r) :
    rsplitCharAux sep r = none := by
  induction r with
  | nil => rfl
  | cons c cs ih =>
    unfold rsplitCharAux
    rw [ih (fun h => hr (List.mem_cons_of_mem _ h))]
    simp only []
    have hc : ¬ (c = sep) := by
      intro h
      exact hr (by rw [← h]; exact List.mem_cons_self c cs)
    rw [if_neg hc]

theorem rsplitCharAux_append (sep : Char) (l r : List Char) (hr : sep ∉ r) :
    rsplitCharAux sep (l ++ sep :: r) = some (l, r) := by
  induction l with
  | nil =>
    simp only [List.nil_append]
    unfold rsplitCharAux
    rw [rsplitCharAux_eq_none sep r hr]
    simp
  | cons c cs ih =>
    simp only [List.cons_append]
    unfold rsplitCharAux
    rw [ih]

theorem rsplitDash_append_i386 (w : String) :
    rsplitDash (w ++ "-i386") = (w, "i386") := by
  have hd : (w ++ "-i386").data = w.data ++ '-' :: ['i', '3', '8', '6'] := by
    rw [String.data_append]
  have hs : '-' ∉ (['i', '3', '8', '6'] : List Char) := by decide
  unfold rsplitDash
  rw [hd]
  rw [rsplitCharAux_append '-' w.data ['i', '3', '8', '6'] hs]

theorem rsplitDash_append_x86_64 (w : String) :
    rsplitDash (w ++ "-x86_64") = (w, "x86_64") := by
  have hd : (w ++ "-x86_64").data = w.data ++ '-' :: ['x', '8', '6', '_', '6', '4'] := by
    rw [String.data_append]
  have hs : '-' ∉ (['x', '8', '6', '_', '6', '4'] : List Char) := by decide
  unfold rsplitDash
  rw [hd]
  rw [rsplitCharAux_append '-' w.data ['x', '8', '6', '_', '6', '4'] hs]

theorem envFullscreen_preserve (cfg : SystemConfig) (e : String → Option String)
    (k : String) (hk : k ≠ "SDL_VIDEO_FULLSCREEN_DISPLAY") :
    envFullscreen cfg e k = e k := by
  unfold envFullscreen
  cases cfg.sdl_video_fullscreen with
  | none => rfl
  | some sv =>
    simp only []
    split
    · rfl
    · exact envSet_ne hk

theorem envDriPrime_preserve (cfg : SystemConfig) (e : String → Option String)
    (k : String) (hk : k ≠ "DRI_PRIME") :
    envDriPrime cfg e k = e k := by
  unfold envDriPrime
  split
  · exact envSet_ne hk
  · rfl

theorem envPrime_preserve (cfg : SystemConfig) (e : String → Option String)
    (k : String) (h1 : k ≠ "__NV_PRIME_RENDER_OFFLOAD")
    (h2 : k ≠ "__GLX_VENDOR_LIBRARY_NAME") (h3 : k ≠ "__VK_LAYER_NV_optimus") :
    envPrime cfg e k = e k := by
  unfold envPrime
  split
  · rw [envSet_ne h3, envSet_ne h2, envSet_ne h1]
  · rfl

theorem envPulse_preserve (cfg : SystemConfig) (e : String → Option String)
    (k : String) (hk : k ≠ "PULSE_LATENCY_MSEC") :
    envPulse cfg e k = e k := by
  unfold envPulse
  split
  · exact envSet_ne hk
  · rfl

theorem envVkIcd_preserve (cfg : SystemConfig) (e : String → Option String)
    (k : String) (hk : k ≠ "VK_ICD_FILENAMES") :
    envVkIcd cfg e k = e k := by
  unfold envVkIcd
  cases cfg.vk_icd with
  | none => rfl
  | some icd =>
    simp only []
    split
    · rfl
    · exact envSet_ne hk

theorem envRuntimeLd_preserve (cfg : SystemConfig)
    (disableRuntimeArg runtimeDisabledEnv : Bool) (runtimeLd : Option String)
    (e : String → Option String) (k : String) (hk : k ≠ "LD_LIBRARY_PATH") :
    envRuntimeLd cfg disableRuntimeArg runtimeDisabledEnv runtimeLd e k = e k := by
  simp only [envRuntimeLd]
  split
  · cases runtimeLd with
    | none => rfl
    | some rt =>
      simp only []
      split
      · rfl
      · exact envSet_ne hk
  · rfl

/-- Claim C1: `prelaunch` returns without raising iff every required
library is available, and when it raises, the error carries exactly the
set of missing libraries (membership-wise) together with the declared
architecture. -/
theorem prelaunch_iff_unavailable (requireLibs : List String) (arch : Option String)
    (inv : LibInventory) :
    (prelaunch requireLibs arch inv = .ok () ↔
      ∀ lib ∈ requireLibs, libAvailable inv arch lib = true) ∧
    (∀ e, prelaunch requireLibs arch inv = .error e →
      e.arch = arch ∧
      ∀ lib, lib ∈ e.libraries ↔ (lib ∈ requireLibs ∧ libAvailable inv arch lib = false)) := by
  constructor
  · unfold prelaunch
    simp only []
    split
    · rename_i hEmpty
      rw [List.isEmpty_iff, List.eq_nil_iff_forall_not_mem] at hEmpty
      constructor
      · intro _ lib hmem
        by_contra hna
        exact hEmpty lib (List.mem_filter.mpr
          ⟨List.mem_dedup.mpr hmem, by simp [Bool.not_eq_true] at hna ⊢; exact hna⟩)
      · intro _; rfl
    · rename_i hNonEmpty
      constructor
      · intro h; cases h
      · intro hall
        exfalso
        rw [List.isEmpty_iff] at hNonEmpty
        apply hNonEmpty
        rw [List.eq_nil_iff_forall_not_mem]
        intro lib hmem
        rcases List.mem_filter.mp hmem with ⟨hd, hb⟩
        rw [hall lib (List.mem_dedup.mp hd)] at hb
        simp at hb
  · unfold prelaunch
    simp only []
    split
    · intro e h; cases h
    · intro e h
      injection h with h
      subst h
      refine ⟨rfl, ?_⟩
      intro lib
      constructor
      · intro hmem
        rcases List.mem_filter.mp hmem with ⟨hd, hb⟩
        exact ⟨List.mem_dedup.mp hd, by simpa using hb⟩
      · intro ⟨hmem, hna⟩
        exact List.mem_filter.mpr ⟨List.mem_dedup.mpr hmem, by simp [hna]⟩

/-- Concrete instantiation of the prelaunch characterisation: with
library `a` present (any architecture) and `b` absent, prelaunch on
requirements `[a, b]` raises with exactly `b` missing. -/
theorem prelaunch_iff_unavailable_witness :
    prelaunch ["a", "b"] none [("a", ["x86_64"])] = .error ⟨["b"], none⟩ ∧
    ("b" ∈ (["b"] : List String) ↔
      ("b" ∈ (["a", "b"] : List String) ∧
        libAvailable [("a", ["x86_64"])] none "b" = false)) := by
  have h := (prelaunch_iff_unavailable ["a", "b"] none [("a", ["x86_64"])]).2
  refine ⟨by rfl, ?_⟩
  exact (h ⟨["b"], none⟩ (by rfl)).2 "b"

/-- Claim C2: in the run sequence of a runnable-alone, installed runner,
if the prelaunch check raises then the `MonitoredCommand` is never
constructed or started: the step trace ends at `getRunData`, with no
`spawn` step, and the error propagates. -/
theorem run_no_spawn_on_prelaunch_error (dialogInstallOk : Bool)
    (requireLibs : List String) (arch : Option String) (inv : LibInventory)
    (e : UnavailableLibrariesError)
    (h : prelaunch requireLibs arch inv = .error e) :
    run true true dialogInstallOk requireLibs arch inv = ([.getRunData], some e) ∧
    RunStep.spawn ∉ (run true true dialogInstallOk requireLibs arch inv).1 := by
  unfold run
  simp [h]

/-- Concrete instantiation: library `z` required but absent, prelaunch
raises, and the run trace contains no spawn step. -/
theorem run_no_spawn_on_prelaunch_error_witness :
    prelaunch ["z"] none [] = .error ⟨["z"], none⟩ ∧
    RunStep.spawn ∉ (run true true true ["z"] none []).1 :=
  ⟨by rfl,
    (run_no_spawn_on_prelaunch_error true ["z"] none [] ⟨["z"], none⟩ (by rfl)).2⟩

/-- Claim C3: for EVERY requested version string ending in an
architecture suffix `-i386` or `-x86_64` — that is, every string of the
form `w ++ "-i386"` or `w ++ "-x86_64"` for an arbitrary remainder `w` —
the suffix replaces the local system architecture used for filtering and
the remainder `w` is used as the exact version filter: the result on any
catalog equals resolving with no requested version, the catalog already
filtered to exact version `w`, and the local architecture replaced by the
suffix architecture. In particular, for a catalog holding version `1.0`
in both `x86_64` (default) and `i386` entries, requesting `1.0-i386` on
an `x86_64` system returns the `i386` entry. -/
theorem get_runner_version_arch_suffix (w localArch : String) (is64 : Bool)
    (catalog : List VersionInfo) (u1 u2 : String) :
    (get_runner_version localArch is64 (.ok (some catalog)) (some (w ++ "-i386")) =
      get_runner_version "i386" is64
        (.ok (some (catalog.filter (fun x => x.version == w)))) none) ∧
    (get_runner_version localArch is64 (.ok (some catalog)) (some (w ++ "-x86_64")) =
      get_runner_version "x86_64" is64
        (.ok (some (catalog.filter (fun x => x.version == w)))) none) ∧
    get_runner_version "x86_64" is64
      (.ok (some [⟨"1.0", "x86_64", u1, true⟩, ⟨"1.0", "i386", u2, false⟩]))
      (some "1.0-i386") =
      some ⟨"1.0", "i386", u2, false⟩ := by
  have hc1 : (strEndsWith (w ++ "-i386") "-i386" ||
      strEndsWith (w ++ "-i386") "-x86_64") = true := by
    rw [strEndsWith_append]
    exact Bool.true_or _
  have hc2 : (strEndsWith (w ++ "-x86_64") "-i386" ||
      strEndsWith (w ++ "-x86_64") "-x86_64") = true := by
    rw [strEndsWith_append]
    exact Bool.or_true _
  have hc3 : (strEndsWith "1.0-i386" "-i386" ||
      strEndsWith "1.0-i386" "-x86_64") = true := by decide
  have hr3 : rsplitDash "1.0-i386" = ("1.0", "i386") := by decide
  refine ⟨?_, ?_, ?_⟩
  · simp only [get_runner_version, hc1, if_true, rsplitDash_append_i386]
  · simp only [get_runner_version, hc2, if_true, rsplitDash_append_x86_64]
  · simp [get_runner_version, hc3, hr3, List.filter]

/-- Claim C4: with no requested version and more than one candidate
matching the local architecture, the first default-flagged one is
returned when any is flagged default; otherwise the first
architecture-matched candidate in catalog order is returned. -/
theorem get_runner_version_multi_arch (localArch : String) (is64 : Bool)
    (catalog : List VersionInfo)
    (h : 1 < (catalog.filter (fun x => x.architecture == localArch)).length) :
    get_runner_version localArch is64 (.ok (some catalog)) none =
      (match ((catalog.filter (fun x => x.architecture == localArch)).filter
          (fun x => x.default)).head? with
      | some d => some d
      | none => (catalog.filter (fun x => x.architecture == localArch)).head?) := by
  have hne : ¬ ((catalog.filter (fun x => x.architecture == localArch)).length = 1) := by
    omega
  have hge : 1 ≤ (catalog.filter (fun x => x.architecture == localArch)).length := by
    omega
  simp only [get_runner_version, finalFallback]
  rw [if_neg hne, if_pos h]
  split
  · rfl
  · rw [if_pos hge]

/-- Concrete instantiation for C4: two `x86_64` candidates, the second
flagged default, no requested version: the default is returned. -/
theorem get_runner_version_multi_arch_witness :
    get_runner_version "x86_64" true
      (.ok (some [⟨"1.0", "x86_64", "uA", false⟩, ⟨"2.0", "x86_64", "uB", true⟩]))
      none = some ⟨"2.0", "x86_64", "uB", true⟩ := by
  have h := get_runner_version_multi_arch "x86_64" true
    [⟨"1.0", "x86_64", "uA", false⟩, ⟨"2.0", "x86_64", "uB", true⟩] (by decide)
  rw [h]; decide

/-- Claim C5: with no candidate matching the local architecture but
exactly one candidate overall, on a 64-bit system that single candidate
is returned. -/
theorem get_runner_version_single_when_64 (localArch : String)
    (catalog : List VersionInfo)
    (h0 : (catalog.filter (fun x => x.architecture == localArch)).length = 0)
    (h1 : catalog.length = 1) :
    get_runner_version localArch true (.ok (some catalog)) none = catalog.head? := by
  have hne : ¬ ((catalog.filter (fun x => x.architecture == localArch)).length = 1) := by
    omega
  have hnl : ¬ (1 < (catalog.filter (fun x => x.architecture == localArch)).length) := by
    omega
  simp only [get_runner_version]
  rw [if_neg hne, if_neg hnl, if_pos ⟨h1, trivial⟩]

/-- Concrete instantiation for C5: a lone `i386` candidate on an
`x86_64` 64-bit system is returned. -/
theorem get_runner_version_single_when_64_witness :
    get_runner_version "x86_64" true
      (.ok (some [⟨"1.0", "i386", "uC", false⟩])) none =
      some ⟨"1.0", "i386", "uC", false⟩ := by
  have h := get_runner_version_single_when_64 "x86_64"
    [⟨"1.0", "i386", "uC", false⟩] (by decide) (by decide)
  rw [h]; rfl

/-- Claim C6: an HTTP failure of the catalog request and a falsy catalog
body both make `get_runner_version` return nothing (no exception
propagates: the function is total and yields `none`), and `install`,
for a runner with no fixed download URL, turns that absent resolved
version into a user-facing `RunnerInstallationError` with a descriptive
message. -/
theorem get_runner_version_soft_failure_install_error
    (name localArch : String) (is64 : Bool) (version : Option String)
    (e : HTTPError) (downloaderPresent : Bool) :
    get_runner_version localArch is64 (.error e) version = none ∧
    get_runner_version localArch is64 (.ok none) version = none ∧
    install name none localArch is64 (.error e) version downloaderPresent =
      .error (.installationError
        ("Failed to retrieve " ++ name ++ " (" ++ optStr version ++ ") information")) ∧
    install name none localArch is64 (.ok none) version downloaderPresent =
      .error (.installationError
        ("Failed to retrieve " ++ name ++ " (" ++ optStr version ++ ") information")) :=
  ⟨rfl, rfl, rfl, rfl⟩

/-- Claim C7 fails as stated, on two inputs. First: the controller
mapping config is set, the expanded path exists as a file with contents
`mapdata`, yet `SDL_GAMECONTROLLERCONFIG` is not the file contents,
because the user `env` override dictionary (applied last) sets it to
`overridden`. Second: the config value is unset, yet the variable is
present in the result, inherited from the seeded OS environment
(`os_env=True`). -/
theorem get_env_controller_mapping_counterexample :
    (((fun p : String => if p == "ctrl.txt" then some "mapdata" else none)
        ((fun p : String => p) "ctrl.txt") = some "mapdata") ∧
    get_env ⟨some "ctrl.txt", none, false, false, false, none, false,
        [("SDL_GAMECONTROLLERCONFIG", "overridden")]⟩
      false (fun _ => none) (fun p => if p == "ctrl.txt" then some "mapdata" else none)
      (fun p => p) "cache" false false none "SDL_GAMECONTROLLERCONFIG" ≠
      some "mapdata") ∧
    get_env ⟨none, none, false, false, false, none, false, []⟩
      true (fun k => if k == "SDL_GAMECONTROLLERCONFIG" then some "inherited" else none)
      (fun _ => none) (fun p => p) "cache" false false none
      "SDL_GAMECONTROLLERCONFIG" ≠ none := by
  refine ⟨⟨by decide, ?_⟩, ?_⟩
  · intro h
    simp [get_env, envApplyOverrides, envRuntimeLd, envVkIcd, envPulse, envPrime,
      envDriPrime, envFullscreen, envController, envShaderCache, envSeed, envSet] at h
  · intro h
    simp [get_env, envApplyOverrides, envRuntimeLd, envVkIcd, envPulse, envPrime,
      envDriPrime, envFullscreen, envController, envShaderCache, envSeed, envSet] at h

/-- Claim C7 (amended: provided neither the seeded OS environment nor
the user env overrides supply `SDL_GAMECONTROLLERCONFIG` themselves):
with a truthy controller-mapping config value, if the user-expanded path
exists as a file the variable is set to the file's contents; if the path
does not exist the variable is the original path string unchanged; and
with the config value unset the variable is absent from the result. -/
theorem get_env_controller_mapping (cfg : SystemConfig) (osEnv : Bool)
    (osEnviron fs : String → Option String) (expandUser : String → String)
    (shaderCachePath : String) (disableRuntimeArg runtimeDisabledEnv : Bool)
    (runtimeLd : Option String)
    (hov : ∀ v, ("SDL_GAMECONTROLLERCONFIG", v) ∉ cfg.envOverrides)
    (hos : osEnviron "SDL_GAMECONTROLLERCONFIG" = none) :
    (∀ p contents, cfg.sdl_gamecontrollerconfig = some p → p ≠ "" →
      fs (expandUser p) = some contents →
      get_env cfg osEnv osEnviron fs expandUser shaderCachePath disableRuntimeArg
        runtimeDisabledEnv runtimeLd "SDL_GAMECONTROLLERCONFIG" = some contents) ∧
    (∀ p, cfg.sdl_gamecontrollerconfig = some p → p ≠ "" →
      fs (expandUser p) = none →
      get_env cfg osEnv osEnviron fs expandUser shaderCachePath disableRuntimeArg
        runtimeDisabledEnv runtimeLd "SDL_GAMECONTROLLERCONFIG" = some p) ∧
    (cfg.sdl_gamecontrollerconfig = none →
      get_env cfg osEnv osEnviron fs expandUser shaderCachePath disableRuntimeArg
        runtimeDisabledEnv runtimeLd "SDL_GAMECONTROLLERCONFIG" = none) := by
  have hstep :
      get_env cfg osEnv osEnviron fs expandUser shaderCachePath disableRuntimeArg
          runtimeDisabledEnv runtimeLd "SDL_GAMECONTROLLERCONFIG" =
        envController cfg fs expandUser
          (envShaderCache shaderCachePath (envSeed osEnv osEnviron))
          "SDL_GAMECONTROLLERCONFIG" := by
    unfold get_env
    rw [envApplyOverrides_not_mem _ _ _ hov,
      envRuntimeLd_preserve _ _ _ _ _ _ (by decide),
      envVkIcd_preserve _ _ _ (by decide),
      envPulse_preserve _ _ _ (by decide),
      envPrime_preserve _ _ _ (by decide) (by decide) (by decide),
      envDriPrime_preserve _ _ _ (by decide),
      envFullscreen_preserve _ _ _ (by decide)]
  refine ⟨?_, ?_, ?_⟩
  · intro p contents hp hpne hfs
    rw [hstep]
    unfold envController
    rw [hp]
    simp only [beq_eq_false_iff_ne, hfs]
    rw [if_neg (by simpa using hpne)]
    exact envSet_self
  · intro p hp hpne hfs
    rw [hstep]
    unfold envController
    rw [hp]
    simp only [hfs]
    rw [if_neg (by simpa using hpne)]
    exact envSet_self
  · intro hp
    rw [hstep]
    unfold envController
    rw [hp]
    simp only []
    unfold envShaderCache
    rw [envSet_ne (by decide), envSet_ne (by decide)]
    unfold envSeed
    cases osEnv with
    | false => rfl
    | true => simpa using hos

/-- Concrete instantiation for C7 (amended): the controller-mapping
path exists with contents `mapdata`, no overrides, and the variable is
the file contents. -/
theorem get_env_controller_mapping_witness :
    get_env ⟨some "ctrl.txt", none, false, false, false, none, false, []⟩
      false (fun _ => none) (fun p => if p == "ctrl.txt" then some "mapdata" else none)
      (fun p => p) "cache" false false none "SDL_GAMECONTROLLERCONFIG" =
      some "mapdata" :=
  (get_env_controller_mapping
      ⟨some "ctrl.txt", none, false, false, false, none, false, []⟩
      false (fun _ => none) (fun p => if p == "ctrl.txt" then some "mapdata" else none)
      (fun p => p) "cache" false false none
      (by simp) rfl).1 "ctrl.txt" "mapdata" rfl (by decide) (by decide)

/-- Claim C8: in the extraction continuation, a missing archive raises
an installation error; a structured extraction failure is rethrown as an
installation error carrying the original failure's message; and on
successful extraction the archive file is removed from the cache. -/
theorem extract_error_and_cleanup (fs : String → Bool) (archive : String)
    (out : Except ExtractFailure Unit) (ex : ExtractFailure) :
    (fs archive = false →
      extract fs archive out =
        (.error (.installationError ("Failed to extract " ++ archive)), fs)) ∧
    (fs archive = true →
      extract fs archive (.error ex) =
        (.error (.installationError
          ("Failed to extract " ++ archive ++ ": " ++ ex.msg)), fs)) ∧
    (fs archive = true →
      extract fs archive (.ok ()) =
        (.ok (), fun p => if p == archive then false else fs p) ∧
      (extract fs archive (.ok ())).2 archive = false) := by
  unfold extract
  refine ⟨?_, ?_, ?_⟩ <;> intro h <;> simp [h]

/-- Concrete instantiation for C8: after a successful extraction of an
existing archive, the archive is gone from the cache. -/
theorem extract_error_and_cleanup_witness :
    ((fun p : String => p == "a.tar") "a.tar" = true) ∧
    (extract (fun p => p == "a.tar") "a.tar" (.ok ())).2 "a.tar" = false :=
  ⟨by decide,
    ((extract_error_and_cleanup (fun p => p == "a.tar") "a.tar" (.ok ())
      ⟨"boom"⟩).2.2 (by decide)).2⟩

/-- Claim C9: a runner whose class declares no `runner_executable` and
whose runner config supplies no existing-file override makes
`is_installed` raise the `ValueError` propagated from `get_executable`
rather than return `False`. -/
theorem is_installed_raises_without_runner_executable (name : String)
    (runnerConfigExec : Option String) (isFile : String → Bool)
    (runnerDir : String) (path_exists : String → Bool)
    (hcfg : ∀ re, runnerConfigExec = some re → isFile re = false) :
    is_installed name runnerConfigExec isFile none runnerDir path_exists =
      .error ("runner_executable not set for " ++ name) ∧
    ∀ b, is_installed name runnerConfigExec isFile none runnerDir path_exists ≠
      .ok b := by
  have hmain : is_installed name runnerConfigExec isFile none runnerDir path_exists =
      .error ("runner_executable not set for " ++ name) := by
    unfold is_installed get_executable
    cases runnerConfigExec with
    | none => rfl
    | some re =>
      simp only []
      rw [hcfg re rfl]
      rfl
  exact ⟨hmain, fun b hb => by rw [hmain] at hb; cases hb⟩

/-- Concrete instantiation for C9: no class executable, no config
override: `is_installed` yields the propagated error. -/
theorem is_installed_raises_without_runner_executable_witness :
    is_installed "fake" none (fun _ => false) none "/runners" (fun _ => true) =
      .error ("runner_executable not set for " ++ "fake") :=
  (is_installed_raises_without_runner_executable "fake" none (fun _ => false)
    "/runners" (fun _ => true) (fun _ h => by cases h)).1

/-- Claim C10: when extraction fails with a structured extraction
failure, the archive file is not removed: the filesystem state is
unchanged on the error path, so the downloaded archive remains in the
cache (removal happens only after a successful extraction). -/
theorem extract_failure_keeps_archive (fs : String → Bool) (archive : String)
    (ex : ExtractFailure) (h : fs archive = true) :
    (extract fs archive (.error ex)).2 = fs ∧
    (extract fs archive (.error ex)).2 archive = true := by
  unfold extract
  simp [h]

/-- Concrete instantiation for C10: a failing extraction of an existing
archive leaves the archive present. -/
theorem extract_failure_keeps_archive_witness :
    (extract (fun p => p == "b.tar") "b.tar" (.error ⟨"corrupt"⟩)).2 "b.tar" = true :=
  (extract_failure_keeps_archive (fun p => p == "b.tar") "b.tar" ⟨"corrupt"⟩
    (by decide)).2

end RunnerModel
